import Mathlib

/-!
Shallow embedding of the Substrate messaging pallet
(`pallets/messaging/src/lib.rs`) and proofs about its specification.

Accounts, hashes and balances are modelled as natural numbers.  Machine
integers with saturating arithmetic in the source (`u64` message ids and
block numbers, `u32` contact counts) are modelled as `Nat` with explicit
saturation at the corresponding maximum.  Storage maps (`StorageMap` with
`OptionQuery`) become `Nat → Option _` functions; `ValueQuery` maps become
functions returning the default; the `ApprovedContacts` double map, into
which the code only ever inserts the value `true` (reads default to
`false`), is modelled as a finite set of key pairs.  Each dispatchable
becomes a function from state to state paired with `Except Err Event`: an
error result carries the state as it is when the error is returned, so
atomicity (`error` implies the state is unchanged) is a real property of
the embedding, not an artefact of it.
-/

namespace Messaging

/-- Maximum value of a `u64` (the type of `MessageId` and of the mock
runtime's block numbers). -/
def u64Max : Nat := 2 ^ 64 - 1

/-- Maximum value of a `u32` (the type of `ContactCount` values). -/
def u32Max : Nat := 2 ^ 32 - 1

/-- `u64::saturating_add`. -/
def satAdd64 (a b : Nat) : Nat := min (a + b) u64Max

/-- `u32::saturating_add`. -/
def satAdd32 (a b : Nat) : Nat := min (a + b) u32Max

abbrev AccountId := Nat
abbrev MessageId := Nat
abbrev HashVal := Nat
abbrev Balance := Nat
abbrev BlockNumber := Nat

/-- The pallet `Config` constants: `SpamBond`, `MaxContactsPerUser`,
`MessageHashExpiry`. -/
structure Config where
  spamBond : Balance
  maxContactsPerUser : Nat
  messageHashExpiry : BlockNumber

/-- The pallet's `Error<T>` enum. -/
inductive Err where
  | ProfileAlreadyExists
  | ProfileNotFound
  | InsufficientBond
  | InvalidPublicKey
  | RecipientNotFound
  | MaxContactsReached
  | ContactNotApproved
  | MessageNotFound
  | MessageExpired
  | NotAuthorized
  | BondAlreadyRefunded
  | CannotAddSelf
  | PublicKeyTooLarge
deriving DecidableEq, Repr

/-- The pallet's `Event<T>` enum. -/
inductive Event where
  | ProfileRegistered (who : AccountId) (publicKey : List Nat)
  | MessageSent (messageId : MessageId) (sender recipient : AccountId) (hash : HashVal)
  | ContactApproved (approver contact : AccountId)
  | ContactRemoved (remover contact : AccountId)
  | SpamChallenged (messageId : MessageId) (challenger : AccountId)
  | BondRefunded (who : AccountId) (amount : Balance)
  | ProfileUpdated (who : AccountId) (publicKey : List Nat)
deriving DecidableEq, Repr

/-- The pallet's storage together with the balance ledger of the
`ReservableCurrency` collaborator. -/
structure MsgState where
  /-- `UserProfiles`: account to bounded public key, `OptionQuery`. -/
  userProfiles : AccountId → Option (List Nat)
  /-- `MessageHashes`: id to `(hash, block, sender, recipient)`, `OptionQuery`. -/
  messageHashes : MessageId → Option (HashVal × BlockNumber × AccountId × AccountId)
  /-- `SpamBonds`: `ValueQuery` map; key presence (`contains_key`) is
  observable, so presence is modelled with `Option` and `get` is `getD 0`. -/
  spamBonds : AccountId → Option Balance
  /-- `ApprovedContacts`: the set of key pairs present in the double map
  (the code only ever stores the value `true`; absent keys read `false`). -/
  approvedContacts : Finset (AccountId × AccountId)
  /-- `ContactCount`: `ValueQuery`, absent keys read `0`. -/
  contactCount : AccountId → Nat
  /-- `NextMessageId`: `ValueQuery`, starts at `0` (a `u64` `MessageId`). -/
  nextMessageId : Nat
  /-- Free balance held by the currency collaborator. -/
  freeBalance : AccountId → Balance
  /-- Reserved balance held by the currency collaborator. -/
  reservedBalance : AccountId → Balance

/-- `T::Currency::reserve`: moves `amount` from free to reserved, failing
(with no state change) when the free balance is insufficient. -/
def reserveFunds (s : MsgState) (who : AccountId) (amount : Balance) :
    MsgState × Bool :=
  if amount ≤ s.freeBalance who then
    ({ s with
        freeBalance := Function.update s.freeBalance who (s.freeBalance who - amount)
        reservedBalance :=
          Function.update s.reservedBalance who (s.reservedBalance who + amount) },
      true)
  else
    (s, false)

/-- `T::Currency::unreserve`: moves back at most `amount` from reserved to
free (never fails; the unfreed remainder is simply ignored by the pallet). -/
def unreserveFunds (s : MsgState) (who : AccountId) (amount : Balance) : MsgState :=
  let freed := min amount (s.reservedBalance who)
  { s with
      reservedBalance :=
        Function.update s.reservedBalance who (s.reservedBalance who - freed)
      freeBalance := Function.update s.freeBalance who (s.freeBalance who + freed) }

/-- `register_profile` (call index 0).  The second length check mirrors the
`try_into` conversion to `BoundedVec`, which in the source happens after the
bond has been reserved and recorded. -/
def register_profile (cfg : Config) (s : MsgState) (who : AccountId)
    (publicKey : List Nat) : MsgState × Except Err Event :=
  if (s.userProfiles who).isSome then (s, .error .ProfileAlreadyExists)
  else if publicKey.isEmpty then (s, .error .InvalidPublicKey)
  else if 256 < publicKey.length then (s, .error .PublicKeyTooLarge)
  else
    let bondAmount := cfg.spamBond
    let r := reserveFunds s who bondAmount
    if r.2 = false then (r.1, .error .InsufficientBond)
    else
      let s2 := { r.1 with spamBonds := Function.update r.1.spamBonds who (some bondAmount) }
      if 256 < publicKey.length then (s2, .error .PublicKeyTooLarge)
      else
        ({ s2 with userProfiles := Function.update s2.userProfiles who (some publicKey) },
          .ok (.ProfileRegistered who publicKey))

/-- `update_profile` (call index 1).  As in `register_profile`, the
`try_into` length check appears a second time in the source. -/
def update_profile (s : MsgState) (who : AccountId) (publicKey : List Nat) :
    MsgState × Except Err Event :=
  if (s.userProfiles who).isSome = false then (s, .error .ProfileNotFound)
  else if publicKey.isEmpty then (s, .error .InvalidPublicKey)
  else if 256 < publicKey.length then (s, .error .PublicKeyTooLarge)
  else if 256 < publicKey.length then (s, .error .PublicKeyTooLarge)
  else
    ({ s with userProfiles := Function.update s.userProfiles who (some publicKey) },
      .ok (.ProfileUpdated who publicKey))

/-- `send_message_hash` (call index 2).  `currentBlock` stands for
`frame_system::Pallet::<T>::block_number()`. -/
def send_message_hash (s : MsgState) (currentBlock : BlockNumber)
    (sender recipient : AccountId) (messageHash : HashVal) :
    MsgState × Except Err Event :=
  if (s.userProfiles sender).isSome = false then (s, .error .ProfileNotFound)
  else if (s.spamBonds sender).isSome = false then (s, .error .InsufficientBond)
  else if (s.userProfiles recipient).isSome = false then (s, .error .RecipientNotFound)
  else
    let messageId := s.nextMessageId
    let nextId := satAdd64 messageId 1
    ({ s with
        nextMessageId := nextId
        messageHashes :=
          Function.update s.messageHashes messageId
            (some (messageHash, currentBlock, sender, recipient)) },
      .ok (.MessageSent messageId sender recipient messageHash))

/-- `approve_contact` (call index 3).  Note that the capacity check on
`ContactCount` precedes the existing-edge test. -/
def approve_contact (cfg : Config) (s : MsgState) (who contact : AccountId) :
    MsgState × Except Err Event :=
  if who = contact then (s, .error .CannotAddSelf)
  else if (s.userProfiles who).isSome = false then (s, .error .ProfileNotFound)
  else if (s.userProfiles contact).isSome = false then (s, .error .RecipientNotFound)
  else if ¬ s.contactCount who < cfg.maxContactsPerUser then
    (s, .error .MaxContactsReached)
  else
    let s1 :=
      if (who, contact) ∈ s.approvedContacts then s
      else
        { s with
            approvedContacts := insert (who, contact) s.approvedContacts
            contactCount :=
              Function.update s.contactCount who (satAdd32 (s.contactCount who) 1) }
    (s1, .ok (.ContactApproved who contact))

/-- `remove_contact` (call index 4).  `ApprovedContacts::take` returns the
stored value and removes the key; the counter is decremented with
`saturating_sub` only when the edge was present. -/
def remove_contact (s : MsgState) (who contact : AccountId) :
    MsgState × Except Err Event :=
  let s1 :=
    if (who, contact) ∈ s.approvedContacts then
      { s with
          approvedContacts := s.approvedContacts.erase (who, contact)
          contactCount := Function.update s.contactCount who (s.contactCount who - 1) }
    else s
  (s1, .ok (.ContactRemoved who contact))

/-- `challenge_spam` (call index 5): reads the message record and emits an
event; no storage is written. -/
def challenge_spam (s : MsgState) (challenger : AccountId) (messageId : MessageId) :
    MsgState × Except Err Event :=
  match s.messageHashes messageId with
  | none => (s, .error .MessageNotFound)
  | some _ => (s, .ok (.SpamChallenged messageId challenger))

/-- `refund_bond` (call index 6). -/
def refund_bond (s : MsgState) (who : AccountId) : MsgState × Except Err Event :=
  let bondAmount := (s.spamBonds who).getD 0
  if ¬ 0 < bondAmount then (s, .error .BondAlreadyRefunded)
  else
    let s1 := unreserveFunds s who bondAmount
    let s2 := { s1 with spamBonds := Function.update s1.spamBonds who none }
    (s2, .ok (.BondRefunded who bondAmount))

/-- `is_message_expired`: expiry is `created_at.saturating_add(expiry)` and
the record is expired strictly after that height; an unknown id counts as
expired. -/
def is_message_expired (cfg : Config) (s : MsgState) (currentBlock : BlockNumber)
    (messageId : MessageId) : Bool :=
  match s.messageHashes messageId with
  | some (_, blockNumber, _, _) =>
      let expiry := satAdd64 blockNumber cfg.messageHashExpiry
      decide (expiry < currentBlock)
  | none => true

/-- `verify_message_hash`: a pure read returning whether the candidate hash
matches the stored one. -/
def verify_message_hash (cfg : Config) (s : MsgState) (currentBlock : BlockNumber)
    (messageId : MessageId) (hash : HashVal) : Except Err Bool :=
  match s.messageHashes messageId with
  | none => .error .MessageNotFound
  | some (storedHash, _, _, _) =>
      if is_message_expired cfg s currentBlock messageId then .error .MessageExpired
      else .ok (decide (storedHash = hash))

/-- A dispatchable call together with its arguments (the signed origin is
the first account argument; for sends also the height at which the call
executes). -/
inductive Op where
  | registerProfile (who : AccountId) (publicKey : List Nat)
  | updateProfile (who : AccountId) (publicKey : List Nat)
  | sendMessageHash (currentBlock : BlockNumber) (sender recipient : AccountId)
      (hash : HashVal)
  | approveContact (who contact : AccountId)
  | removeContact (who contact : AccountId)
  | challengeSpam (challenger : AccountId) (messageId : MessageId)
  | refundBond (who : AccountId)
deriving DecidableEq, Repr

/-- Dispatch one call against the state. -/
def applyOp (cfg : Config) (s : MsgState) : Op → MsgState × Except Err Event
  | .registerProfile who key => register_profile cfg s who key
  | .updateProfile who key => update_profile s who key
  | .sendMessageHash cb sender recipient h => send_message_hash s cb sender recipient h
  | .approveContact who contact => approve_contact cfg s who contact
  | .removeContact who contact => remove_contact s who contact
  | .challengeSpam challenger mid => challenge_spam s challenger mid
  | .refundBond who => refund_bond s who

/-- The fresh chain state: all pallet storage empty, arbitrary genesis free
balances, nothing reserved. -/
def initState (free : AccountId → Balance) : MsgState where
  userProfiles := fun _ => none
  messageHashes := fun _ => none
  spamBonds := fun _ => none
  approvedContacts := ∅
  contactCount := fun _ => 0
  nextMessageId := 0
  freeBalance := free
  reservedBalance := fun _ => 0

/-- Run a list of calls, keeping only the final state. -/
def applyOps (cfg : Config) (s : MsgState) : List Op → MsgState
  | [] => s
  | op :: rest => applyOps cfg (applyOp cfg s op).1 rest

/-- A state is reachable when some call sequence produces it from a fresh
state under the given configuration. -/
def Reachable (cfg : Config) (s : MsgState) : Prop :=
  ∃ free ops, s = applyOps cfg (initState free) ops

/-- Whether a call is a `send_message_hash` call. -/
def Op.isSend : Op → Bool
  | .sendMessageHash _ _ _ _ => true
  | _ => false

/-- Whether a dispatch result is a success. -/
def isOkResult : Except Err Event → Bool
  | .ok _ => true
  | .error _ => false

/-- Number of calls in a trace that are `send_message_hash` and succeed. -/
def sendCount (cfg : Config) (s : MsgState) : List Op → Nat
  | [] => 0
  | op :: rest =>
      let r := applyOp cfg s op
      (if op.isSend && isOkResult r.2 then 1 else 0) + sendCount cfg r.1 rest

/-- The invariant relating the denormalized `ContactCount` entries to the
`ApprovedContacts` edges: each owner's counter equals the number of edges
keyed by that owner and stays within `MaxContactsPerUser`. -/
def ContactInvariant (cfg : Config) (s : MsgState) : Prop :=
  ∀ owner : AccountId,
    s.contactCount owner = (s.approvedContacts.filter (fun p => p.1 = owner)).card ∧
    s.contactCount owner ≤ cfg.maxContactsPerUser

/-- Genesis free balances used by the concrete examples below. -/
def wFree : AccountId → Balance := fun _ => 1000

/-- Configuration with `MaxContactsPerUser = 1`. -/
def c1Cfg : Config := ⟨100, 1, 1000⟩

/-- Trace: accounts 1 and 2 register, then 1 approves 2, filling 1's
contact capacity under `c1Cfg`. -/
def c1Ops : List Op :=
  [.registerProfile 1 [7], .registerProfile 2 [7], .approveContact 1 2]

/-- The reachable state produced by `c1Ops` under `c1Cfg`. -/
def c1State : MsgState := applyOps c1Cfg (initState wFree) c1Ops

/-- Configuration used by the send-trace examples. -/
def c2Cfg : Config := ⟨100, 5, 1000⟩

/-- Trace: two registrations followed by two successful sends. -/
def c2Ops : List Op :=
  [.registerProfile 1 [5], .registerProfile 2 [6],
    .sendMessageHash 3 1 2 42, .sendMessageHash 4 1 2 43]

/-- A state holding one message record with id `0`, hash `42`, created at
height `1`, from account `1` to account `2`; account 1 holds a bond of 100. -/
def m1State : MsgState where
  userProfiles := fun a => if a = 1 ∨ a = 2 then some [7] else none
  messageHashes := fun i => if i = 0 then some (42, 1, 1, 2) else none
  spamBonds := fun a => if a = 1 then some 100 else none
  approvedContacts := ∅
  contactCount := fun _ => 0
  nextMessageId := 1
  freeBalance := fun _ => 900
  reservedBalance := fun a => if a = 1 then 100 else 0

/-- Configuration whose `SpamBond` constant is zero. -/
def c4Cfg : Config := ⟨0, 5, 1000⟩

/-- The reachable state in which accounts 1 and 2 registered under a zero
`SpamBond`: account 1's recorded bond is present but zero. -/
def c4State : MsgState :=
  applyOps c4Cfg (initState wFree) [.registerProfile 1 [7], .registerProfile 2 [7]]

/-- Configuration with `MaxContactsPerUser = 3`. -/
def c6Cfg : Config := ⟨100, 3, 1000⟩

/-- Trace exercising approval idempotence and removal. -/
def c6Ops : List Op :=
  [.registerProfile 1 [7], .registerProfile 2 [7], .approveContact 1 2,
    .approveContact 1 2, .approveContact 2 1, .removeContact 2 1]

/-- The reachable state produced by `c6Ops` under `c6Cfg`. -/
def c6State : MsgState := applyOps c6Cfg (initState wFree) c6Ops

/-- Variant of `m1State` in which account 1 has approved account 2. -/
def c10State : MsgState :=
  { m1State with
      approvedContacts := {(1, 2)}
      contactCount := fun a => if a = 1 then 1 else 0 }

/-- C9: `is_message_expired` returns `true` exactly when the record is
absent or the current height strictly exceeds the creation height plus the
configured expiry window (computed with saturating addition), and `false`
otherwise; it is a pure read, so no record is deleted by the check. -/
theorem is_message_expired_iff (cfg : Config) (s : MsgState) (cur : BlockNumber)
    (mid : MessageId) :
    is_message_expired cfg s cur mid = true ↔
      s.messageHashes mid = none ∨
        ∃ h bn sr rc, s.messageHashes mid = some (h, bn, sr, rc) ∧
          satAdd64 bn cfg.messageHashExpiry < cur := by
  unfold is_message_expired
  cases hm : s.messageHashes mid with
  | none => simp
  | some r =>
      obtain ⟨h, bn, sr, rc⟩ := r
      simp
      constructor
      · intro hlt
        exact ⟨h, bn, ⟨rfl, rfl⟩, hlt⟩
      · rintro ⟨h1, bn1, ⟨he, hbe⟩, hlt⟩
        rw [hbe]
        exact hlt

/-- C3: `verify_message_hash` fails with `MessageNotFound` when no record
with the id exists, fails with `MessageExpired` when the record exists but
`is_message_expired` holds, and otherwise returns `Ok` of whether the
candidate equals the stored hash; it is a pure read and changes no state. -/
theorem verify_message_hash_spec (cfg : Config) (s : MsgState) (cur : BlockNumber)
    (mid : MessageId) (h : HashVal) :
    (s.messageHashes mid = none →
        verify_message_hash cfg s cur mid h = .error .MessageNotFound) ∧
    (∀ sh bn sr rc, s.messageHashes mid = some (sh, bn, sr, rc) →
        is_message_expired cfg s cur mid = true →
        verify_message_hash cfg s cur mid h = .error .MessageExpired) ∧
    (∀ sh bn sr rc, s.messageHashes mid = some (sh, bn, sr, rc) →
        is_message_expired cfg s cur mid = false →
        verify_message_hash cfg s cur mid h = .ok (decide (sh = h))) := by
  refine ⟨fun hm => ?_, fun sh bn sr rc hm hexp => ?_, fun sh bn sr rc hm hexp => ?_⟩
  · simp [verify_message_hash, hm]
  · simp [verify_message_hash, hm, hexp]
  · simp [verify_message_hash, hm, hexp]

/-- Witness for `verify_message_hash_spec`: an unknown id, an expired
record, and a live record with a matching hash, in a concrete state. -/
theorem verify_message_hash_spec_witness :
    verify_message_hash c2Cfg m1State 5 7 99 = .error .MessageNotFound ∧
    verify_message_hash c2Cfg m1State 2000 0 42 = .error .MessageExpired ∧
    verify_message_hash c2Cfg m1State 5 0 42 = .ok true := by
  refine ⟨(verify_message_hash_spec c2Cfg m1State 5 7 99).1 rfl,
    (verify_message_hash_spec c2Cfg m1State 2000 0 42).2.1 42 1 1 2 rfl rfl, ?_⟩
  have h3 := (verify_message_hash_spec c2Cfg m1State 5 0 42).2.2 42 1 1 2 rfl rfl
  simpa using h3

/-- C8: `challenge_spam` fails with `MessageNotFound` for an unknown id and
otherwise emits `SpamChallenged` naming the message and the caller while
returning the state completely unchanged (message record, bonds, reserved
funds and expiry data included). -/
theorem challenge_spam_spec (s : MsgState) (challenger : AccountId) (mid : MessageId) :
    (s.messageHashes mid = none →
        challenge_spam s challenger mid = (s, .error .MessageNotFound)) ∧
    (∀ r, s.messageHashes mid = some r →
        challenge_spam s challenger mid = (s, .ok (.SpamChallenged mid challenger))) := by
  constructor
  · intro hm
    simp [challenge_spam, hm]
  · intro r hm
    simp [challenge_spam, hm]

/-- Witness for `challenge_spam_spec`: the unknown-id branch at id 7 and
the known-id branch at id 0 of a concrete state. -/
theorem challenge_spam_spec_witness :
    challenge_spam m1State 3 7 = (m1State, .error .MessageNotFound) ∧
    challenge_spam m1State 3 0 = (m1State, .ok (.SpamChallenged 0 3)) :=
  ⟨(challenge_spam_spec m1State 3 7).1 rfl,
    (challenge_spam_spec m1State 3 0).2 (42, 1, 1, 2) rfl⟩

/-- C10: `remove_contact` always succeeds and emits `ContactRemoved`, with
no profile or edge precondition; it deletes the edge and decrements the
caller's counter when the edge exists and leaves the state untouched when
it does not. -/
theorem remove_contact_spec (s : MsgState) (who contact : AccountId) :
    (remove_contact s who contact).2 = .ok (.ContactRemoved who contact) ∧
    ((who, contact) ∈ s.approvedContacts →
        (remove_contact s who contact).1 =
          { s with
              approvedContacts := s.approvedContacts.erase (who, contact)
              contactCount :=
                Function.update s.contactCount who (s.contactCount who - 1) }) ∧
    ((who, contact) ∉ s.approvedContacts → (remove_contact s who contact).1 = s) := by
  by_cases hm : (who, contact) ∈ s.approvedContacts <;>
    simp [remove_contact, hm]

/-- Witness for `remove_contact_spec`: removal of an existing edge in
`c10State` and of a missing edge in `m1State`. -/
theorem remove_contact_spec_witness :
    (remove_contact c10State 1 2).1.approvedContacts = ∅ ∧
    (remove_contact m1State 1 2).1 = m1State := by
  constructor
  · have h := (remove_contact_spec c10State 1 2).2.1 (by decide)
    rw [h]
    decide
  · exact (remove_contact_spec m1State 1 2).2.2 (by decide)

/-- C5: `refund_bond` fails with `BondAlreadyRefunded` exactly when the
recorded bond is zero; otherwise it unreserves the recorded amount through
the currency service, clears the bond record, and emits `BondRefunded`
with that amount — so an immediate second refund by the same account fails
with `BondAlreadyRefunded`. -/
theorem refund_bond_spec (s : MsgState) (who : AccountId) :
    ((refund_bond s who).2 = .error .BondAlreadyRefunded ↔
      (s.spamBonds who).getD 0 = 0) ∧
    (0 < (s.spamBonds who).getD 0 →
        refund_bond s who =
          ({ unreserveFunds s who ((s.spamBonds who).getD 0) with
              spamBonds :=
                Function.update
                  (unreserveFunds s who ((s.spamBonds who).getD 0)).spamBonds who
                  none },
            .ok (.BondRefunded who ((s.spamBonds who).getD 0))) ∧
        refund_bond (refund_bond s who).1 who =
          ((refund_bond s who).1, .error .BondAlreadyRefunded)) := by
  by_cases hb : 0 < (s.spamBonds who).getD 0
  · have hne : ¬ (s.spamBonds who).getD 0 = 0 := Nat.pos_iff_ne_zero.mp hb
    have hfst : (refund_bond s who).1 =
        { unreserveFunds s who ((s.spamBonds who).getD 0) with
            spamBonds :=
              Function.update
                (unreserveFunds s who ((s.spamBonds who).getD 0)).spamBonds who
                none } := by
      simp [refund_bond, hb]
    constructor
    · simp [refund_bond, hb, hne]
    · intro _
      refine ⟨?_, ?_⟩
      · simp [refund_bond, hb]
      · rw [hfst]
        simp [refund_bond]
  · have h0 : (s.spamBonds who).getD 0 = 0 := Nat.eq_zero_of_not_pos hb
    constructor
    · simp [refund_bond, hb, h0]
    · intro hpos
      exact absurd hpos hb

/-- Witness for `refund_bond_spec`: account 1 refunds its bond of 100 in
`m1State` and an immediately repeated refund fails. -/
theorem refund_bond_spec_witness :
    (refund_bond m1State 1).2 = .ok (.BondRefunded 1 100) ∧
    refund_bond (refund_bond m1State 1).1 1 =
      ((refund_bond m1State 1).1, .error .BondAlreadyRefunded) := by
  have h := (refund_bond_spec m1State 1).2 (by decide)
  refine ⟨?_, h.2⟩
  rw [h.1]
  rfl

/-- Failed reservations leave the currency ledger untouched. -/
theorem reserveFunds_of_fail (s : MsgState) (who : AccountId) (a : Balance)
    (h : (reserveFunds s who a).2 = false) : (reserveFunds s who a).1 = s := by
  unfold reserveFunds at h ⊢
  by_cases hle : a ≤ s.freeBalance who
  · simp [hle] at h
  · simp [hle]

/-- An erroring `register_profile` returns the state unchanged; the only
fallible step after the bond mutations is the `BoundedVec` conversion,
whose length bound was already validated. -/
theorem register_profile_error_state (cfg : Config) (s : MsgState) (who : AccountId)
    (key : List Nat) (e : Err) (h : (register_profile cfg s who key).2 = .error e) :
    (register_profile cfg s who key).1 = s := by
  unfold register_profile at h ⊢
  by_cases h1 : (s.userProfiles who).isSome
  · simp [h1]
  · by_cases h2 : key.isEmpty
    · simp [h1, h2]
    · by_cases h3 : 256 < key.length
      · simp [h1, h2, h3]
      · by_cases h4 : (reserveFunds s who cfg.spamBond).2 = false
        · simp [h1, h2, h3, h4]
          exact reserveFunds_of_fail s who cfg.spamBond h4
        · simp [h1, h2, h3, h4] at h

/-- An erroring `update_profile` returns the state unchanged. -/
theorem update_profile_error_state (s : MsgState) (who : AccountId)
    (key : List Nat) (e : Err) (h : (update_profile s who key).2 = .error e) :
    (update_profile s who key).1 = s := by
  unfold update_profile at h ⊢
  by_cases h1 : (s.userProfiles who).isSome
  · by_cases h2 : key.isEmpty
    · simp [h1, h2]
    · by_cases h3 : 256 < key.length
      · simp [h1, h2, h3]
      · simp [h1, h2, h3] at h
  · simp [h1]

/-- An erroring `send_message_hash` returns the state unchanged. -/
theorem send_message_hash_error_state (s : MsgState) (cur : BlockNumber)
    (sender recipient : AccountId) (mh : HashVal) (e : Err)
    (h : (send_message_hash s cur sender recipient mh).2 = .error e) :
    (send_message_hash s cur sender recipient mh).1 = s := by
  unfold send_message_hash at h ⊢
  by_cases h1 : (s.userProfiles sender).isSome
  · by_cases h2 : (s.spamBonds sender).isSome
    · by_cases h3 : (s.userProfiles recipient).isSome
      · simp [h1, h2, h3] at h
      · simp [h1, h2, h3]
    · simp [h1, h2]
  · simp [h1]

/-- An erroring `approve_contact` returns the state unchanged. -/
theorem approve_contact_error_state (cfg : Config) (s : MsgState)
    (who contact : AccountId) (e : Err)
    (h : (approve_contact cfg s who contact).2 = .error e) :
    (approve_contact cfg s who contact).1 = s := by
  unfold approve_contact at h ⊢
  by_cases h1 : who = contact
  · simp [h1]
  · by_cases h2 : (s.userProfiles who).isSome
    · by_cases h3 : (s.userProfiles contact).isSome
      · by_cases h4 : s.contactCount who < cfg.maxContactsPerUser
        · simp [h1, h2, h3, h4] at h
        · simp [h1, h2, h3, h4]
      · simp [h1, h2, h3]
    · simp [h1, h2]

/-- An erroring `challenge_spam` returns the state unchanged. -/
theorem challenge_spam_error_state (s : MsgState) (challenger : AccountId)
    (mid : MessageId) (e : Err)
    (h : (challenge_spam s challenger mid).2 = .error e) :
    (challenge_spam s challenger mid).1 = s := by
  unfold challenge_spam at h ⊢
  cases hm : s.messageHashes mid with
  | none => simp [hm]
  | some r => simp [hm] at h

/-- An erroring `refund_bond` returns the state unchanged. -/
theorem refund_bond_error_state (s : MsgState) (who : AccountId) (e : Err)
    (h : (refund_bond s who).2 = .error e) : (refund_bond s who).1 = s := by
  unfold refund_bond at h ⊢
  by_cases hb : 0 < (s.spamBonds who).getD 0
  · simp [hb] at h
  · simp [hb]

/-- Any dispatched call that returns an error leaves the state unchanged. -/
theorem applyOp_error_state (cfg : Config) (s : MsgState) (op : Op) (e : Err)
    (h : (applyOp cfg s op).2 = .error e) : (applyOp cfg s op).1 = s := by
  cases op with
  | registerProfile who key => exact register_profile_error_state cfg s who key e h
  | updateProfile who key => exact update_profile_error_state s who key e h
  | sendMessageHash cb sender recipient mh =>
      exact send_message_hash_error_state s cb sender recipient mh e h
  | approveContact who contact => exact approve_contact_error_state cfg s who contact e h
  | removeContact who contact => simp [applyOp, remove_contact] at h
  | challengeSpam challenger mid => exact challenge_spam_error_state s challenger mid e h
  | refundBond who => exact refund_bond_error_state s who e h

/-- C7: every public operation is atomic — whenever a dispatched call
returns an error, the whole state (profiles, bonds, message records,
contacts, counters and balances) is exactly as before the call; in
particular `register_profile`'s post-mutation `BoundedVec` conversion can
never fail because the key length was already validated. -/
theorem dispatch_atomic (cfg : Config) (s : MsgState) (op : Op) (e : Err)
    (h : (applyOp cfg s op).2 = .error e) : (applyOp cfg s op).1 = s :=
  applyOp_error_state cfg s op e h

/-- Witness for `dispatch_atomic`: challenging an unknown message id in a
concrete state errors and leaves the state unchanged. -/
theorem dispatch_atomic_witness :
    (applyOp c2Cfg m1State (.challengeSpam 1 5)).1 = m1State :=
  dispatch_atomic c2Cfg m1State (.challengeSpam 1 5) .MessageNotFound rfl

/-- Counterexample to C1: in the reachable state `c1State` the edge
`(1, 2)` already exists and account 1's counter equals `MaxContactsPerUser`,
yet `approve_contact` fails with `MaxContactsReached` instead of succeeding
as a no-op, because the capacity check precedes the existing-edge test. -/
theorem approve_contact_at_max_existing_edge :
    (1, 2) ∈ c1State.approvedContacts ∧
    c1State.contactCount 1 = c1Cfg.maxContactsPerUser ∧
    approve_contact c1Cfg c1State 1 2 = (c1State, .error .MaxContactsReached) :=
  ⟨by decide, rfl, rfl⟩

/-- C1 (amended): past the self and profile checks, `approve_contact`
fails with `MaxContactsReached` exactly when the caller's counter has
reached `MaxContactsPerUser`, regardless of whether the edge exists; when
the counter is below the maximum, approving an existing edge succeeds as a
no-op with no state change, and approving a new edge inserts it and
increments the counter. -/
theorem approve_contact_capacity_spec (cfg : Config) (s : MsgState)
    (who contact : AccountId) (hne : who ≠ contact)
    (hw : (s.userProfiles who).isSome = true)
    (hc : (s.userProfiles contact).isSome = true) :
    ((approve_contact cfg s who contact).2 = .error .MaxContactsReached ↔
      cfg.maxContactsPerUser ≤ s.contactCount who) ∧
    (s.contactCount who < cfg.maxContactsPerUser →
        ((who, contact) ∈ s.approvedContacts →
          approve_contact cfg s who contact = (s, .ok (.ContactApproved who contact))) ∧
        ((who, contact) ∉ s.approvedContacts →
          approve_contact cfg s who contact =
            ({ s with
                approvedContacts := insert (who, contact) s.approvedContacts
                contactCount :=
                  Function.update s.contactCount who
                    (satAdd32 (s.contactCount who) 1) },
              .ok (.ContactApproved who contact)))) := by
  by_cases h4 : s.contactCount who < cfg.maxContactsPerUser
  · have hnot : ¬ cfg.maxContactsPerUser ≤ s.contactCount who := Nat.not_le.mpr h4
    constructor
    · by_cases hmem : (who, contact) ∈ s.approvedContacts <;>
        simp [approve_contact, hne, hw, hc, h4, hnot, hmem]
    · intro _
      constructor
      · intro hmem
        simp [approve_contact, hne, hw, hc, h4, hmem]
      · intro hmem
        simp [approve_contact, hne, hw, hc, h4, hmem]
  · have hle : cfg.maxContactsPerUser ≤ s.contactCount who := Nat.le_of_not_lt h4
    constructor
    · simp [approve_contact, hne, hw, hc, h4, hle]
    · intro hlt
      exact absurd hlt h4

/-- Witness for `approve_contact_capacity_spec`: an idempotent re-approval
below capacity in `c6State`, and the capacity failure at the maximum in
`c1State`. -/
theorem approve_contact_capacity_spec_witness :
    approve_contact c6Cfg c6State 1 2 = (c6State, .ok (.ContactApproved 1 2)) ∧
    (approve_contact c1Cfg c1State 1 2).2 = .error .MaxContactsReached := by
  refine ⟨((approve_contact_capacity_spec c6Cfg c6State 1 2 (by decide) (by decide)
      (by decide)).2 (by decide)).1 (by decide), ?_⟩
  exact (approve_contact_capacity_spec c1Cfg c1State 1 2 (by decide) (by decide)
    (by decide)).1.mpr (by decide)

/-- Counterexample to C4: in the reachable state `c4State` (registration
under a zero `SpamBond` constant) the sender's recorded bond is zero, yet
`send_message_hash` succeeds — the code only requires the bond record to
exist, never that it be nonzero. -/
theorem send_message_hash_zero_bond_succeeds :
    (c4State.spamBonds 1).getD 0 = 0 ∧
    (send_message_hash c4State 1 1 2 42).2 = .ok (.MessageSent 0 1 2 42) :=
  ⟨by decide, rfl⟩

/-- C4 (amended): `send_message_hash` fails with `ProfileNotFound` when the
sender has no profile; with `InsufficientBond` when the sender has a
profile but no bond record (the record's value is never inspected, so a
recorded zero bond passes); and with `RecipientNotFound` when the sender
checks pass but the recipient has no profile.  Since `refund_bond` removes
the bond record, a sender who has refunded their bond can no longer send. -/
theorem send_message_hash_precondition_spec (s : MsgState) (cur : BlockNumber)
    (sender recipient : AccountId) (mh : HashVal) :
    ((s.userProfiles sender).isSome = false →
        send_message_hash s cur sender recipient mh = (s, .error .ProfileNotFound)) ∧
    ((s.userProfiles sender).isSome = true → (s.spamBonds sender).isSome = false →
        send_message_hash s cur sender recipient mh = (s, .error .InsufficientBond)) ∧
    ((s.userProfiles sender).isSome = true → (s.spamBonds sender).isSome = true →
        (s.userProfiles recipient).isSome = false →
        send_message_hash s cur sender recipient mh = (s, .error .RecipientNotFound)) ∧
    ((s.userProfiles sender).isSome = true → 0 < (s.spamBonds sender).getD 0 →
        send_message_hash (refund_bond s sender).1 cur sender recipient mh =
          ((refund_bond s sender).1, .error .InsufficientBond)) := by
  refine ⟨fun h1 => ?_, fun h1 h2 => ?_, fun h1 h2 h3 => ?_, fun h1 hb => ?_⟩
  · simp [send_message_hash, h1]
  · simp [send_message_hash, h1, h2]
  · simp [send_message_hash, h1, h2, h3]
  · simp [send_message_hash, refund_bond, hb, unreserveFunds, h1]

/-- Witness for `send_message_hash_precondition_spec`: the three error
branches and the refund-then-send failure, all in `m1State`. -/
theorem send_message_hash_precondition_spec_witness :
    send_message_hash m1State 2 3 2 50 = (m1State, .error .ProfileNotFound) ∧
    send_message_hash m1State 2 2 1 50 = (m1State, .error .InsufficientBond) ∧
    send_message_hash m1State 2 1 3 50 = (m1State, .error .RecipientNotFound) ∧
    send_message_hash (refund_bond m1State 1).1 2 1 2 50 =
      ((refund_bond m1State 1).1, .error .InsufficientBond) :=
  ⟨(send_message_hash_precondition_spec m1State 2 3 2 50).1 (by decide),
    (send_message_hash_precondition_spec m1State 2 2 1 50).2.1 (by decide) (by decide),
    (send_message_hash_precondition_spec m1State 2 1 3 50).2.2.1 (by decide) (by decide)
      (by decide),
    (send_message_hash_precondition_spec m1State 2 1 2 50).2.2.2 (by decide) (by decide)⟩

/-- A state with the same contact graph and counters as one satisfying the
invariant also satisfies it. -/
theorem contactInvariant_of_frame (cfg : Config) (s t : MsgState)
    (hA : t.approvedContacts = s.approvedContacts)
    (hC : t.contactCount = s.contactCount)
    (hinv : ContactInvariant cfg s) : ContactInvariant cfg t := by
  intro owner
  rw [hA, hC]
  exact hinv owner

/-- `reserve` never touches the contact graph or the counters. -/
theorem reserveFunds_contacts (s : MsgState) (who : AccountId) (a : Balance) :
    (reserveFunds s who a).1.approvedContacts = s.approvedContacts ∧
    (reserveFunds s who a).1.contactCount = s.contactCount := by
  unfold reserveFunds
  by_cases h : a ≤ s.freeBalance who <;> simp [h]

/-- `register_profile` never touches the contact graph or the counters. -/
theorem register_profile_contacts_frame (cfg : Config) (s : MsgState) (who : AccountId)
    (key : List Nat) :
    (register_profile cfg s who key).1.approvedContacts = s.approvedContacts ∧
    (register_profile cfg s who key).1.contactCount = s.contactCount := by
  unfold register_profile
  by_cases h1 : (s.userProfiles who).isSome
  · simp [h1]
  · by_cases h2 : key.isEmpty
    · simp [h1, h2]
    · by_cases h3 : 256 < key.length
      · simp [h1, h2, h3]
      · by_cases h4 : (reserveFunds s who cfg.spamBond).2 = false
        · simp [h1, h2, h3, h4, reserveFunds_of_fail s who cfg.spamBond h4]
        · simp [h1, h2, h3, h4, (reserveFunds_contacts s who cfg.spamBond).1,
            (reserveFunds_contacts s who cfg.spamBond).2]

/-- `update_profile` never touches the contact graph or the counters. -/
theorem update_profile_contacts_frame (s : MsgState) (who : AccountId)
    (key : List Nat) :
    (update_profile s who key).1.approvedContacts = s.approvedContacts ∧
    (update_profile s who key).1.contactCount = s.contactCount := by
  unfold update_profile
  split_ifs <;> exact ⟨rfl, rfl⟩

/-- `send_message_hash` never touches the contact graph or the counters. -/
theorem send_message_hash_contacts_frame (s : MsgState) (cur : BlockNumber)
    (sender recipient : AccountId) (mh : HashVal) :
    (send_message_hash s cur sender recipient mh).1.approvedContacts =
      s.approvedContacts ∧
    (send_message_hash s cur sender recipient mh).1.contactCount = s.contactCount := by
  unfold send_message_hash
  split_ifs <;> exact ⟨rfl, rfl⟩

/-- `challenge_spam` never touches the contact graph or the counters. -/
theorem challenge_spam_contacts_frame (s : MsgState) (challenger : AccountId)
    (mid : MessageId) :
    (challenge_spam s challenger mid).1.approvedContacts = s.approvedContacts ∧
    (challenge_spam s challenger mid).1.contactCount = s.contactCount := by
  unfold challenge_spam
  cases s.messageHashes mid <;> exact ⟨rfl, rfl⟩

/-- `refund_bond` never touches the contact graph or the counters. -/
theorem refund_bond_contacts_frame (s : MsgState) (who : AccountId) :
    (refund_bond s who).1.approvedContacts = s.approvedContacts ∧
    (refund_bond s who).1.contactCount = s.contactCount := by
  unfold refund_bond unreserveFunds
  by_cases hb : 0 < (s.spamBonds who).getD 0 <;> simp [hb]

/-- `approve_contact` preserves the contact invariant. -/
theorem contactInvariant_approve (cfg : Config) (s : MsgState) (who contact : AccountId)
    (hmax : cfg.maxContactsPerUser ≤ u32Max) (hinv : ContactInvariant cfg s) :
    ContactInvariant cfg (approve_contact cfg s who contact).1 := by
  unfold approve_contact
  by_cases h1 : who = contact
  · simp only [h1, if_true, ite_true]
    exact hinv
  · by_cases h2 : (s.userProfiles who).isSome = false
    · simp [h1, h2]
      exact hinv
    · by_cases h3 : (s.userProfiles contact).isSome = false
      · simp [h1, h2, h3]
        exact hinv
      · by_cases h4 : s.contactCount who < cfg.maxContactsPerUser
        · by_cases hmem : (who, contact) ∈ s.approvedContacts
          · simp [h1, h2, h3, h4, hmem]
            exact hinv
          · simp [h1, h2, h3, h4, hmem]
            have hsat : satAdd32 (s.contactCount who) 1 = s.contactCount who + 1 := by
              have hle : s.contactCount who + 1 ≤ u32Max :=
                le_trans (Nat.succ_le_of_lt h4) hmax
              unfold satAdd32
              omega
            intro owner
            dsimp only
            obtain ⟨hcard, hbound⟩ := hinv owner
            by_cases howner : owner = who
            · subst howner
              have hnotfilter :
                  (owner, contact) ∉
                    s.approvedContacts.filter (fun p => p.1 = owner) := by
                intro hmem2
                exact hmem (Finset.mem_of_mem_filter _ hmem2)
              constructor
              · rw [Function.update_same, hsat, Finset.filter_insert, if_pos rfl,
                  Finset.card_insert_of_not_mem hnotfilter, hcard]
              · rw [Function.update_same, hsat]
                exact Nat.succ_le_of_lt h4
            · constructor
              · rw [Function.update_noteq howner, Finset.filter_insert,
                  if_neg (fun hq => howner hq.symm), hcard]
              · rw [Function.update_noteq howner]
                exact hbound
        · simp [h1, h2, h3, h4]
          exact hinv

/-- `remove_contact` preserves the contact invariant. -/
theorem contactInvariant_remove (cfg : Config) (s : MsgState) (who contact : AccountId)
    (hinv : ContactInvariant cfg s) :
    ContactInvariant cfg (remove_contact s who contact).1 := by
  unfold remove_contact
  by_cases hmem : (who, contact) ∈ s.approvedContacts
  · simp only [hmem, if_true, ite_true]
    intro owner
    dsimp only
    obtain ⟨hcard, hbound⟩ := hinv owner
    by_cases howner : owner = who
    · subst howner
      have hmf : (owner, contact) ∈ s.approvedContacts.filter (fun p => p.1 = owner) :=
        Finset.mem_filter.mpr ⟨hmem, rfl⟩
      constructor
      · rw [Function.update_same, Finset.filter_erase, Finset.card_erase_of_mem hmf,
          hcard]
      · rw [Function.update_same]
        exact le_trans (Nat.sub_le _ _) hbound
    · have hnf : (who, contact) ∉ s.approvedContacts.filter (fun p => p.1 = owner) := by
        intro hmem2
        exact howner ((Finset.mem_filter.mp hmem2).2.symm)
      constructor
      · rw [Function.update_noteq howner, Finset.filter_erase,
          Finset.erase_eq_of_not_mem hnf, hcard]
      · rw [Function.update_noteq howner]
        exact hbound
  · simp only [hmem, if_false, ite_false]
    exact hinv

/-- Every dispatched call preserves the contact invariant. -/
theorem contactInvariant_step (cfg : Config) (hmax : cfg.maxContactsPerUser ≤ u32Max)
    (s : MsgState) (op : Op) (hinv : ContactInvariant cfg s) :
    ContactInvariant cfg (applyOp cfg s op).1 := by
  cases op with
  | registerProfile who key =>
      have hf := register_profile_contacts_frame cfg s who key
      exact contactInvariant_of_frame cfg s _ hf.1 hf.2 hinv
  | updateProfile who key =>
      have hf := update_profile_contacts_frame s who key
      exact contactInvariant_of_frame cfg s _ hf.1 hf.2 hinv
  | sendMessageHash cb sender recipient mh =>
      have hf := send_message_hash_contacts_frame s cb sender recipient mh
      exact contactInvariant_of_frame cfg s _ hf.1 hf.2 hinv
  | approveContact who contact => exact contactInvariant_approve cfg s who contact hmax hinv
  | removeContact who contact => exact contactInvariant_remove cfg s who contact hinv
  | challengeSpam challenger mid =>
      have hf := challenge_spam_contacts_frame s challenger mid
      exact contactInvariant_of_frame cfg s _ hf.1 hf.2 hinv
  | refundBond who =>
      have hf := refund_bond_contacts_frame s who
      exact contactInvariant_of_frame cfg s _ hf.1 hf.2 hinv

/-- Running any trace preserves the contact invariant. -/
theorem contactInvariant_applyOps (cfg : Config)
    (hmax : cfg.maxContactsPerUser ≤ u32Max) :
    ∀ (ops : List Op) (s : MsgState), ContactInvariant cfg s →
      ContactInvariant cfg (applyOps cfg s ops)
  | [], _, h => h
  | op :: rest, s, h =>
      contactInvariant_applyOps cfg hmax rest (applyOp cfg s op).1
        (contactInvariant_step cfg hmax s op h)

/-- The fresh state satisfies the contact invariant. -/
theorem contactInvariant_init (cfg : Config) (free : AccountId → Balance) :
    ContactInvariant cfg (initState free) := by
  intro owner
  constructor
  · simp [initState]
  · simp [initState]

/-- C6: in every reachable state each owner's `ContactCount` entry equals
the number of edges keyed by that owner in `ApprovedContacts` and never
exceeds `MaxContactsPerUser`, and every dispatched call preserves this
invariant (stated for any maximum within the `u32` range of the counter). -/
theorem contact_count_invariant (cfg : Config)
    (hmax : cfg.maxContactsPerUser ≤ u32Max) :
    (∀ s, Reachable cfg s → ContactInvariant cfg s) ∧
    (∀ s op, ContactInvariant cfg s → ContactInvariant cfg (applyOp cfg s op).1) := by
  constructor
  · rintro s ⟨free, ops, rfl⟩
    exact contactInvariant_applyOps cfg hmax ops _ (contactInvariant_init cfg free)
  · intro s op h
    exact contactInvariant_step cfg hmax s op h

/-- Witness for `contact_count_invariant`: the invariant in the concrete
reachable state `c6State`. -/
theorem contact_count_invariant_witness : ContactInvariant c6Cfg c6State :=
  (contact_count_invariant c6Cfg (by decide)).1 c6State ⟨wFree, c6Ops, rfl⟩

/-- `reserve` never touches the message ledger or the id counter. -/
theorem reserveFunds_messages (s : MsgState) (who : AccountId) (a : Balance) :
    (reserveFunds s who a).1.messageHashes = s.messageHashes ∧
    (reserveFunds s who a).1.nextMessageId = s.nextMessageId := by
  unfold reserveFunds
  by_cases h : a ≤ s.freeBalance who <;> simp [h]

/-- `register_profile` never touches the message ledger or the id counter. -/
theorem register_profile_messages_frame (cfg : Config) (s : MsgState) (who : AccountId)
    (key : List Nat) :
    (register_profile cfg s who key).1.messageHashes = s.messageHashes ∧
    (register_profile cfg s who key).1.nextMessageId = s.nextMessageId := by
  unfold register_profile
  by_cases h1 : (s.userProfiles who).isSome
  · simp [h1]
  · by_cases h2 : key.isEmpty
    · simp [h1, h2]
    · by_cases h3 : 256 < key.length
      · simp [h1, h2, h3]
      · by_cases h4 : (reserveFunds s who cfg.spamBond).2 = false
        · simp [h1, h2, h3, h4, reserveFunds_of_fail s who cfg.spamBond h4]
        · simp [h1, h2, h3, h4, (reserveFunds_messages s who cfg.spamBond).1,
            (reserveFunds_messages s who cfg.spamBond).2]

/-- `update_profile` never touches the message ledger or the id counter. -/
theorem update_profile_messages_frame (s : MsgState) (who : AccountId)
    (key : List Nat) :
    (update_profile s who key).1.messageHashes = s.messageHashes ∧
    (update_profile s who key).1.nextMessageId = s.nextMessageId := by
  unfold update_profile
  split_ifs <;> exact ⟨rfl, rfl⟩

/-- `approve_contact` never touches the message ledger or the id counter. -/
theorem approve_contact_messages_frame (cfg : Config) (s : MsgState)
    (who contact : AccountId) :
    (approve_contact cfg s who contact).1.messageHashes = s.messageHashes ∧
    (approve_contact cfg s who contact).1.nextMessageId = s.nextMessageId := by
  unfold approve_contact
  by_cases h1 : who = contact
  · simp [h1]
  · by_cases h2 : (s.userProfiles who).isSome = false
    · simp [h1, h2]
    · by_cases h3 : (s.userProfiles contact).isSome = false
      · simp [h1, h2, h3]
      · by_cases h4 : s.contactCount who < cfg.maxContactsPerUser
        · by_cases hmem : (who, contact) ∈ s.approvedContacts <;>
            simp [h1, h2, h3, h4, hmem]
        · simp [h1, h2, h3, h4]

/-- `remove_contact` never touches the message ledger or the id counter. -/
theorem remove_contact_messages_frame (s : MsgState) (who contact : AccountId) :
    (remove_contact s who contact).1.messageHashes = s.messageHashes ∧
    (remove_contact s who contact).1.nextMessageId = s.nextMessageId := by
  unfold remove_contact
  by_cases hmem : (who, contact) ∈ s.approvedContacts <;> simp [hmem]

/-- `challenge_spam` never touches the message ledger or the id counter. -/
theorem challenge_spam_messages_frame (s : MsgState) (challenger : AccountId)
    (mid : MessageId) :
    (challenge_spam s challenger mid).1.messageHashes = s.messageHashes ∧
    (challenge_spam s challenger mid).1.nextMessageId = s.nextMessageId := by
  unfold challenge_spam
  cases s.messageHashes mid <;> exact ⟨rfl, rfl⟩

/-- `refund_bond` never touches the message ledger or the id counter. -/
theorem refund_bond_messages_frame (s : MsgState) (who : AccountId) :
    (refund_bond s who).1.messageHashes = s.messageHashes ∧
    (refund_bond s who).1.nextMessageId = s.nextMessageId := by
  unfold refund_bond unreserveFunds
  by_cases hb : 0 < (s.spamBonds who).getD 0 <;> simp [hb]

/-- Any call other than `send_message_hash` leaves the message ledger and
the id counter untouched, whether it succeeds or fails. -/
theorem applyOp_nonsend_frame (cfg : Config) (s : MsgState) (op : Op)
    (h : Op.isSend op = false) :
    (applyOp cfg s op).1.messageHashes = s.messageHashes ∧
    (applyOp cfg s op).1.nextMessageId = s.nextMessageId := by
  cases op with
  | registerProfile who key => exact register_profile_messages_frame cfg s who key
  | updateProfile who key => exact update_profile_messages_frame s who key
  | sendMessageHash cb sender recipient mh => simp [Op.isSend] at h
  | approveContact who contact => exact approve_contact_messages_frame cfg s who contact
  | removeContact who contact => exact remove_contact_messages_frame s who contact
  | challengeSpam challenger mid => exact challenge_spam_messages_frame s challenger mid
  | refundBond who => exact refund_bond_messages_frame s who

/-- A successful `send_message_hash` stores its record under the current
value of the id counter and advances the counter by exactly one, with
saturating addition. -/
theorem send_message_hash_ok_effects (s : MsgState) (cur : BlockNumber)
    (sender recipient : AccountId) (mh : HashVal) (e : Event)
    (h : (send_message_hash s cur sender recipient mh).2 = .ok e) :
    (send_message_hash s cur sender recipient mh).1 =
      { s with
          nextMessageId := satAdd64 s.nextMessageId 1
          messageHashes :=
            Function.update s.messageHashes s.nextMessageId
              (some (mh, cur, sender, recipient)) } := by
  unfold send_message_hash at h ⊢
  by_cases h1 : (s.userProfiles sender).isSome
  · by_cases h2 : (s.spamBonds sender).isSome
    · by_cases h3 : (s.userProfiles recipient).isSome
      · simp [h1, h2, h3]
      · simp [h1, h2, h3] at h
    · simp [h1, h2] at h
  · simp [h1] at h

/-- Saturating `u64` addition agrees with plain addition below the bound. -/
theorem satAdd64_eq_add (a b : Nat) (h : a + b ≤ u64Max) : satAdd64 a b = a + b :=
  min_eq_left h

/-- Main induction for message-id bookkeeping: starting from a state whose
stored ids are exactly those below the counter, a trace whose successful
sends keep the counter within the `u64` range advances the counter by the
number of successful sends and stores exactly the ids below the new
counter. -/
theorem sendRun_inv (cfg : Config) :
    ∀ (ops : List Op) (s : MsgState),
      (∀ mid : Nat, (s.messageHashes mid).isSome = true ↔ mid < s.nextMessageId) →
      s.nextMessageId + sendCount cfg s ops ≤ u64Max →
      (applyOps cfg s ops).nextMessageId = s.nextMessageId + sendCount cfg s ops ∧
      ∀ mid : Nat, ((applyOps cfg s ops).messageHashes mid).isSome = true ↔
        mid < s.nextMessageId + sendCount cfg s ops := by
  intro ops
  induction ops with
  | nil =>
      intro s hinv _
      constructor
      · simp [applyOps, sendCount]
      · intro mid
        simpa [applyOps, sendCount] using hinv mid
  | cons op rest ih =>
      intro s hinv hbound
      by_cases hsend : Op.isSend op = false
      · -- not a send: the message fields are framed
        have hc0 : sendCount cfg s (op :: rest) =
            sendCount cfg (applyOp cfg s op).1 rest := by
          simp [sendCount, hsend]
        have hf := applyOp_nonsend_frame cfg s op hsend
        have hinv' : ∀ mid : Nat,
            ((applyOp cfg s op).1.messageHashes mid).isSome = true ↔
              mid < (applyOp cfg s op).1.nextMessageId := by
          intro mid
          rw [hf.1, hf.2]
          exact hinv mid
        have hbound' : (applyOp cfg s op).1.nextMessageId +
            sendCount cfg (applyOp cfg s op).1 rest ≤ u64Max := by
          rw [hf.2, ← hc0]
          exact hbound
        have ihres := ih (applyOp cfg s op).1 hinv' hbound'
        constructor
        · simp only [applyOps]
          rw [ihres.1, hf.2, hc0]
        · intro mid
          simp only [applyOps]
          rw [ihres.2 mid, hf.2, hc0]
      · -- a send
        have hsend' : Op.isSend op = true := by
          cases hb : Op.isSend op
          · exact absurd hb hsend
          · rfl
        obtain ⟨cb, sender, recipient, mh, rfl⟩ :
            ∃ cb sr rc mh, op = Op.sendMessageHash cb sr rc mh := by
          cases op with
          | sendMessageHash cb sr rc mh => exact ⟨cb, sr, rc, mh, rfl⟩
          | registerProfile who key => simp [Op.isSend] at hsend'
          | updateProfile who key => simp [Op.isSend] at hsend'
          | approveContact who contact => simp [Op.isSend] at hsend'
          | removeContact who contact => simp [Op.isSend] at hsend'
          | challengeSpam challenger mid => simp [Op.isSend] at hsend'
          | refundBond who => simp [Op.isSend] at hsend'
        cases hres : (send_message_hash s cb sender recipient mh).2 with
        | error e =>
            have hs : (send_message_hash s cb sender recipient mh).1 = s :=
              applyOp_error_state cfg s (Op.sendMessageHash cb sender recipient mh) e hres
            have hc0 : sendCount cfg s (Op.sendMessageHash cb sender recipient mh :: rest) =
                sendCount cfg s rest := by
              simp only [sendCount, applyOp]
              simp [hres, isOkResult, hs]
            have hbound' : s.nextMessageId + sendCount cfg s rest ≤ u64Max := by
              rw [← hc0]
              exact hbound
            have ihres := ih s hinv hbound'
            constructor
            · simp only [applyOps, applyOp]
              rw [hs, ihres.1, hc0]
            · intro mid
              simp only [applyOps, applyOp]
              rw [hs, ihres.2 mid, hc0]
        | ok ev =>
            have heff := send_message_hash_ok_effects s cb sender recipient mh ev hres
            have hc1 : sendCount cfg s (Op.sendMessageHash cb sender recipient mh :: rest) =
                1 + sendCount cfg (send_message_hash s cb sender recipient mh).1 rest := by
              simp only [sendCount, applyOp]
              simp [hres, isOkResult, Op.isSend]
            have hle1 : s.nextMessageId + 1 ≤ u64Max := by
              rw [hc1] at hbound
              omega
            have hsat64 : satAdd64 s.nextMessageId 1 = s.nextMessageId + 1 :=
              satAdd64_eq_add _ _ hle1
            have hr1nid : (send_message_hash s cb sender recipient mh).1.nextMessageId =
                s.nextMessageId + 1 := by
              rw [heff]
              exact hsat64
            have hinv' : ∀ mid : Nat,
                ((send_message_hash s cb sender recipient mh).1.messageHashes
                    mid).isSome = true ↔
                  mid < (send_message_hash s cb sender recipient mh).1.nextMessageId := by
              intro mid
              rw [hr1nid, heff]
              dsimp only
              by_cases hm : mid = s.nextMessageId
              · subst hm
                simp
              · rw [Function.update_noteq hm, hinv mid]
                omega
            have hbound' : (send_message_hash s cb sender recipient mh).1.nextMessageId +
                sendCount cfg (send_message_hash s cb sender recipient mh).1 rest ≤
                  u64Max := by
              rw [hr1nid]
              rw [hc1] at hbound
              omega
            have ihres := ih _ hinv' hbound'
            constructor
            · simp only [applyOps, applyOp]
              rw [ihres.1, hr1nid, hc1]
              omega
            · intro mid
              simp only [applyOps, applyOp]
              rw [ihres.2 mid, hr1nid, hc1]
              omega

/-- C2: from a fresh state, successful `send_message_hash` calls assign
ids 0, 1, 2, … strictly increasing and gap-free: as long as the number of
successful sends stays within the saturating `u64` range, after a trace
with `N` successful sends the counter equals `N` and exactly the ids below
`N` are stored; each successful send stores its record under the current
counter value and advances the counter by exactly one (saturating at the
maximum); no other call changes the counter and no call ever decreases a
counter in the `u64` range. -/
theorem send_message_hash_id_assignment (cfg : Config) (free : AccountId → Balance)
    (ops : List Op) (hsat : sendCount cfg (initState free) ops ≤ u64Max) :
    ((applyOps cfg (initState free) ops).nextMessageId =
        sendCount cfg (initState free) ops ∧
      ∀ mid : Nat, ((applyOps cfg (initState free) ops).messageHashes mid).isSome = true ↔
        mid < sendCount cfg (initState free) ops) ∧
    (∀ (s : MsgState) (cur : BlockNumber) (sender recipient : AccountId)
        (mh : HashVal) (e : Event),
        (send_message_hash s cur sender recipient mh).2 = .ok e →
        (send_message_hash s cur sender recipient mh).1 =
          { s with
              nextMessageId := satAdd64 s.nextMessageId 1
              messageHashes :=
                Function.update s.messageHashes s.nextMessageId
                  (some (mh, cur, sender, recipient)) }) ∧
    (∀ (s : MsgState) (op : Op), Op.isSend op = false →
        (applyOp cfg s op).1.nextMessageId = s.nextMessageId) ∧
    (∀ (s : MsgState) (op : Op), s.nextMessageId ≤ u64Max →
        s.nextMessageId ≤ (applyOp cfg s op).1.nextMessageId) := by
  refine ⟨?_, ?_, ?_, ?_⟩
  · have hinit : ∀ mid : Nat, ((initState free).messageHashes mid).isSome = true ↔
        mid < (initState free).nextMessageId := by
      intro mid
      simp [initState]
    have hbound : (initState free).nextMessageId +
        sendCount cfg (initState free) ops ≤ u64Max := by
      simpa [initState] using hsat
    have h := sendRun_inv cfg ops (initState free) hinit hbound
    constructor
    · rw [h.1]
      simp [initState]
    · intro mid
      rw [h.2 mid]
      simp [initState]
  · intro s cur sender recipient mh e h
    exact send_message_hash_ok_effects s cur sender recipient mh e h
  · intro s op h
    exact (applyOp_nonsend_frame cfg s op h).2
  · intro s op hle
    by_cases hsend : Op.isSend op = false
    · exact le_of_eq (applyOp_nonsend_frame cfg s op hsend).2.symm
    · obtain ⟨cb, sender, recipient, mh, rfl⟩ :
          ∃ cb sr rc mh, op = Op.sendMessageHash cb sr rc mh := by
        cases op with
        | sendMessageHash cb sr rc mh => exact ⟨cb, sr, rc, mh, rfl⟩
        | registerProfile who key => simp [Op.isSend] at hsend
        | updateProfile who key => simp [Op.isSend] at hsend
        | approveContact who contact => simp [Op.isSend] at hsend
        | removeContact who contact => simp [Op.isSend] at hsend
        | challengeSpam challenger mid => simp [Op.isSend] at hsend
        | refundBond who => simp [Op.isSend] at hsend
      cases hres : (send_message_hash s cb sender recipient mh).2 with
      | error e =>
          have hs : (send_message_hash s cb sender recipient mh).1 = s :=
            applyOp_error_state cfg s (Op.sendMessageHash cb sender recipient mh) e hres
          show s.nextMessageId ≤ (send_message_hash s cb sender recipient mh).1.nextMessageId
          exact le_of_eq (congrArg MsgState.nextMessageId hs).symm
      | ok ev =>
          have heff := send_message_hash_ok_effects s cb sender recipient mh ev hres
          have hnid : (send_message_hash s cb sender recipient mh).1.nextMessageId =
              satAdd64 s.nextMessageId 1 := by
            rw [heff]
          show s.nextMessageId ≤ (send_message_hash s cb sender recipient mh).1.nextMessageId
          rw [hnid]
          unfold satAdd64
          omega

/-- Witness for `send_message_hash_id_assignment`: the concrete trace
`c2Ops` contains two successful sends and ends with the counter equal to
its send count. -/
theorem send_message_hash_id_assignment_witness :
    (applyOps c2Cfg (initState wFree) c2Ops).nextMessageId =
      sendCount c2Cfg (initState wFree) c2Ops :=
  (send_message_hash_id_assignment c2Cfg wFree c2Ops (by decide)).1.1

end Messaging
